import Mathlib

/-!
Shallow embedding of the `react-native-msal` client facade
(`src/publicClientApplication.native.ts` and `src/nativeModule.ts`).

The facade is a class `PublicClientApplication` holding an immutable
configuration and a private boolean `isInitialized` flag.  Every method other
than `init` first calls `validateIsInitialized`, which throws a plain JS
`Error` when the flag is false; otherwise the method forwards its arguments
to the bound native module `RNMSAL` and returns the provider's result
unchanged.  `init` invokes `RNMSAL.createPublicClientApplication(config)`
once, sets the flag on success, wraps the provider error message on failure,
and returns `this`.

Modelling choices:
* JS exceptions are values of `JSError` (the runtime class name of the thrown
  object plus its message); both throw sites in the source use `new Error(...)`,
  so both carry class name "Error".
* The opaque record types (`MSALConfiguration`, `MSALResult`, …) are never
  inspected by the facade, so they are embedded as `Nat`.  The
  `MSALSignoutParams` record is the one parameter whose field `account` the
  facade reads (`signOut`'s default branch), so it is a structure; its other
  field stands for the remaining options (`signoutFromBrowser`, …) that the
  facade never reads.
* A method call is embedded as a function from the provider binding and the
  current instance state to a `CallOutcome`: the returned/thrown value, the
  post-state of the instance, and the ordered list of provider invocations
  made during the call (so that "the provider is not invoked" is expressible).
* Asynchrony is immaterial here: every method performs at most one provider
  call and `await`s it to completion, so each method is a pure function of the
  provider's (modelled, deterministic) behaviour.
-/

/-- Opaque configuration record passed to the constructor. -/
abbrev MSALConfiguration := Nat

/-- Opaque parameter record of `acquireToken`. -/
abbrev MSALInteractiveParams := Nat

/-- Opaque parameter record of `acquireTokenSilent`. -/
abbrev MSALSilentParams := Nat

/-- Opaque account record. -/
abbrev MSALAccount := Nat

/-- Opaque token-result record. -/
abbrev MSALResult := Nat

/-- Parameter record of `signOut`.  The facade reads only `account`
(`RNMSAL.removeAccount(params.account)` on the default platform branch);
`otherOptions` stands for every other field of the record
(`signoutFromBrowser`, webview parameters, …), which the facade never reads.
The record shape is taken from the spec since `types.ts` is not among the
provided sources. -/
structure MSALSignoutParams where
  account : MSALAccount
  otherOptions : Nat
  deriving DecidableEq, Repr

/-- A thrown JavaScript error value: its runtime class name (both throw sites
in the source construct `new Error(...)`, i.e. class "Error") and its
`message` string. -/
structure JSError where
  className : String
  message : String
  deriving DecidableEq, Repr

/-- Build a plain `new Error(message)` value. -/
def jsError (message : String) : JSError :=
  { className := "Error", message := message }

/-- One invocation of the native binding, with the argument the facade passed.
Constructors mirror the methods of the `RNMSALNativeModule` type in
`nativeModule.ts`. -/
inductive ProviderCall where
  | createPublicClientApplication (config : MSALConfiguration)
  | acquireToken (params : MSALInteractiveParams)
  | acquireTokenSilent (params : MSALSilentParams)
  | getAccounts
  | getAccount (accountIdentifier : String)
  | removeAccount (account : MSALAccount)
  | signout (params : MSALSignoutParams)
  deriving DecidableEq, Repr

/-- The behaviour of the bound native module `RNMSAL`: for each method, the
result the provider resolves with (`Except.ok`) or rejects with
(`Except.error`).  Signatures mirror `RNMSALNativeModule` in
`nativeModule.ts`. -/
structure RNMSALNativeModule where
  createPublicClientApplication : MSALConfiguration → Except JSError Unit
  acquireToken : MSALInteractiveParams → Except JSError (Option MSALResult)
  acquireTokenSilent : MSALSilentParams → Except JSError (Option MSALResult)
  getAccounts : Except JSError (List MSALAccount)
  getAccount : String → Except JSError (Option MSALAccount)
  removeAccount : MSALAccount → Except JSError Bool
  signout : MSALSignoutParams → Except JSError Bool

/-- The values of `Platform.OS` in react-native. -/
inductive PlatformOS where
  | ios
  | android
  | windows
  | macos
  | web
  deriving DecidableEq, Repr

/-- Embedding of react-native's `Platform.select({ios: a, default: b})`:
pick the `ios` entry on iOS and the `default` entry on every other
platform. -/
def ReactNative.Platform.select {α : Type} (os : PlatformOS) (iosCase dfltCase : α) : α :=
  match os with
  | PlatformOS.ios => iosCase
  | _ => dfltCase

/-- The error message thrown at module-evaluation time by `nativeModule.ts`
when `NativeModules.RNMSAL` is absent. -/
def nativeModuleMissingMessage : String :=
  "Native module RNMSAL is not available. " ++
  "Please ensure you have linked the native module correctly. " ++
  "Run: npx react-native link react-native-msal (or use Expo config plugin for Expo projects)"

/-- Embedding of the module-evaluation of `nativeModule.ts`: it reads
`NativeModules.RNMSAL` (absent is `none`) and throws immediately when the
binding is missing; otherwise the binding is the module's default export. -/
def loadNativeModule (nm : Option RNMSALNativeModule) : Except JSError RNMSALNativeModule :=
  match nm with
  | none => Except.error (jsError nativeModuleMissingMessage)
  | some m => Except.ok m

/-- The facade instance: the configuration captured by the constructor
(`private readonly config`) and the private `isInitialized` flag. -/
structure PublicClientApplication where
  config : MSALConfiguration
  isInitialized : Bool
  deriving DecidableEq, Repr

/-- Embedding of `new PublicClientApplication(config)`: the field initializer
sets `isInitialized = false`. -/
def PublicClientApplication.new (config : MSALConfiguration) : PublicClientApplication :=
  { config := config, isInitialized := false }

/-- The result of one facade method call: the value returned (`Except.ok`) or
thrown (`Except.error`), the instance state after the call, and the provider
invocations the call made, in order. -/
structure CallOutcome (α : Type) where
  ret : Except JSError α
  state : PublicClientApplication
  calls : List ProviderCall
  deriving Repr

/-- The wrapped message built by `init`'s catch block:
`` `Failed to initialize PublicClientApplication: ${message}. ` +
'Ensure the native MSAL module is properly linked and configured.' ``
(the `error instanceof Error ? error.message : String(error)` distinction
collapses here because provider rejections are modelled as `JSError` values,
which always carry a message). -/
def initFailureMessage (message : String) : String :=
  "Failed to initialize PublicClientApplication: " ++ message ++
  ". Ensure the native MSAL module is properly linked and configured."

/-- Embedding of `PublicClientApplication.init`: when the flag is false, await
`RNMSAL.createPublicClientApplication(this.config)`; on success set the flag
and fall through to `return this`; on rejection rethrow the wrapped `Error`
with the flag untouched.  When the flag is already true, `return this` with no
provider call. -/
def PublicClientApplication.init (M : RNMSALNativeModule) (s : PublicClientApplication) :
    CallOutcome PublicClientApplication :=
  if s.isInitialized = false then
    match M.createPublicClientApplication s.config with
    | Except.ok _ =>
        let s2 : PublicClientApplication := { s with isInitialized := true }
        { ret := Except.ok s2, state := s2,
          calls := [ProviderCall.createPublicClientApplication s.config] }
    | Except.error e =>
        { ret := Except.error (jsError (initFailureMessage e.message)), state := s,
          calls := [ProviderCall.createPublicClientApplication s.config] }
  else
    { ret := Except.ok s, state := s, calls := [] }

/-- The message of the guard error thrown by `validateIsInitialized`. -/
def notInitializedMessage : String :=
  "PublicClientApplication is not initialized. You must call the `init` method before any other method."

/-- The guard error itself: `new Error(notInitializedMessage)`. -/
def notInitializedError : JSError :=
  jsError notInitializedMessage

/-- Embedding of the private `validateIsInitialized`: throw the guard `Error`
when the flag is false. -/
def PublicClientApplication.validateIsInitialized (s : PublicClientApplication) :
    Except JSError Unit :=
  if s.isInitialized = false then Except.error notInitializedError else Except.ok ()

/-- Embedding of `acquireToken`: guard, then forward `params` to
`RNMSAL.acquireToken` and return its result unchanged. -/
def PublicClientApplication.acquireToken (M : RNMSALNativeModule)
    (s : PublicClientApplication) (params : MSALInteractiveParams) :
    CallOutcome (Option MSALResult) :=
  match s.validateIsInitialized with
  | Except.error e => { ret := Except.error e, state := s, calls := [] }
  | Except.ok _ =>
      { ret := M.acquireToken params, state := s, calls := [ProviderCall.acquireToken params] }

/-- Embedding of `acquireTokenSilent`: guard, then forward `params` to
`RNMSAL.acquireTokenSilent` and return its result unchanged. -/
def PublicClientApplication.acquireTokenSilent (M : RNMSALNativeModule)
    (s : PublicClientApplication) (params : MSALSilentParams) :
    CallOutcome (Option MSALResult) :=
  match s.validateIsInitialized with
  | Except.error e => { ret := Except.error e, state := s, calls := [] }
  | Except.ok _ =>
      { ret := M.acquireTokenSilent params, state := s,
        calls := [ProviderCall.acquireTokenSilent params] }

/-- Embedding of `getAccounts`: guard, then forward to `RNMSAL.getAccounts`. -/
def PublicClientApplication.getAccounts (M : RNMSALNativeModule)
    (s : PublicClientApplication) : CallOutcome (List MSALAccount) :=
  match s.validateIsInitialized with
  | Except.error e => { ret := Except.error e, state := s, calls := [] }
  | Except.ok _ =>
      { ret := M.getAccounts, state := s, calls := [ProviderCall.getAccounts] }

/-- Embedding of `getAccount`: guard, then forward the identifier to
`RNMSAL.getAccount`. -/
def PublicClientApplication.getAccount (M : RNMSALNativeModule)
    (s : PublicClientApplication) (accountIdentifier : String) :
    CallOutcome (Option MSALAccount) :=
  match s.validateIsInitialized with
  | Except.error e => { ret := Except.error e, state := s, calls := [] }
  | Except.ok _ =>
      { ret := M.getAccount accountIdentifier, state := s,
        calls := [ProviderCall.getAccount accountIdentifier] }

/-- Embedding of `removeAccount`: guard, then forward the account to
`RNMSAL.removeAccount`. -/
def PublicClientApplication.removeAccount (M : RNMSALNativeModule)
    (s : PublicClientApplication) (account : MSALAccount) : CallOutcome Bool :=
  match s.validateIsInitialized with
  | Except.error e => { ret := Except.error e, state := s, calls := [] }
  | Except.ok _ =>
      { ret := M.removeAccount account, state := s,
        calls := [ProviderCall.removeAccount account] }

/-- Embedding of `signOut`: guard, then
`Platform.select({ios: () => RNMSAL.signout(params),
default: () => RNMSAL.removeAccount(params.account)})()`. -/
def PublicClientApplication.signOut (M : RNMSALNativeModule) (os : PlatformOS)
    (s : PublicClientApplication) (params : MSALSignoutParams) : CallOutcome Bool :=
  match s.validateIsInitialized with
  | Except.error e => { ret := Except.error e, state := s, calls := [] }
  | Except.ok _ =>
      ReactNative.Platform.select os
        { ret := M.signout params, state := s, calls := [ProviderCall.signout params] }
        { ret := M.removeAccount params.account, state := s,
          calls := [ProviderCall.removeAccount params.account] }

/-- One facade operation together with its argument, for reasoning about
sequences of calls on an instance. -/
inductive FacadeOp where
  | init
  | acquireToken (params : MSALInteractiveParams)
  | acquireTokenSilent (params : MSALSilentParams)
  | getAccounts
  | getAccount (accountIdentifier : String)
  | removeAccount (account : MSALAccount)
  | signOut (params : MSALSignoutParams)
  deriving DecidableEq, Repr

/-- The throw part of a method result: `none` when the call returned normally,
`some e` when it threw `e`. -/
def exceptErr {α : Type} : Except JSError α → Option JSError
  | Except.ok _ => none
  | Except.error e => some e

/-- A method result with the returned payload forgotten (kept: whether and
what the call threw, the post-state, and the provider calls made).  This is
the uniform view needed to reason about heterogeneous call sequences. -/
structure StepOut where
  err : Option JSError
  state : PublicClientApplication
  calls : List ProviderCall
  deriving DecidableEq, Repr

/-- Forget the payload of a method result. -/
def CallOutcome.step {α : Type} (r : CallOutcome α) : StepOut :=
  { err := exceptErr r.ret, state := r.state, calls := r.calls }

/-- Run one facade operation against provider `M` on platform `os` from
instance state `s`. -/
def runOp (M : RNMSALNativeModule) (os : PlatformOS) (s : PublicClientApplication) :
    FacadeOp → StepOut
  | FacadeOp.init => (PublicClientApplication.init M s).step
  | FacadeOp.acquireToken p => (PublicClientApplication.acquireToken M s p).step
  | FacadeOp.acquireTokenSilent p => (PublicClientApplication.acquireTokenSilent M s p).step
  | FacadeOp.getAccounts => (PublicClientApplication.getAccounts M s).step
  | FacadeOp.getAccount i => (PublicClientApplication.getAccount M s i).step
  | FacadeOp.removeAccount a => (PublicClientApplication.removeAccount M s a).step
  | FacadeOp.signOut p => (PublicClientApplication.signOut M os s p).step

/-- Run a sequence of facade operations, returning the final instance state
and the per-operation outcomes in order. -/
def runSeq (M : RNMSALNativeModule) (os : PlatformOS) :
    PublicClientApplication → List FacadeOp →
    PublicClientApplication × List (FacadeOp × StepOut)
  | s, [] => (s, [])
  | s, op :: rest =>
      let out := runOp M os s op
      let r := runSeq M os out.state rest
      (r.1, (op, out) :: r.2)

/-- Count of provider-setup invocations in a call trace. -/
def countSetupCalls : List ProviderCall → Nat
  | [] => 0
  | ProviderCall.createPublicClientApplication _ :: rest => 1 + countSetupCalls rest
  | _ :: rest => countSetupCalls rest

/-- Embedding of process start for a consumer of the package: evaluating
`nativeModule.ts` (which throws when the binding is absent) necessarily
precedes constructing a `PublicClientApplication`, because the facade module
imports the binding module at its top. -/
def appStart (nm : Option RNMSALNativeModule) (config : MSALConfiguration) :
    Except JSError (RNMSALNativeModule × PublicClientApplication) :=
  match loadNativeModule nm with
  | Except.error e => Except.error e
  | Except.ok m => Except.ok (m, PublicClientApplication.new config)

/-- A concrete provider behaviour in which every call resolves. -/
def sampleModule : RNMSALNativeModule where
  createPublicClientApplication := fun _ => Except.ok ()
  acquireToken := fun p => Except.ok (some (p + 1))
  acquireTokenSilent := fun p => Except.ok (some (p + 2))
  getAccounts := Except.ok [1, 2]
  getAccount := fun _ => Except.ok none
  removeAccount := fun _ => Except.ok true
  signout := fun _ => Except.ok false

/-- A concrete provider behaviour whose setup call rejects. -/
def failingModule : RNMSALNativeModule :=
  { sampleModule with createPublicClientApplication := fun _ => Except.error (jsError "boom") }

/-- Unfolding lemma: `runSeq` on the empty sequence. -/
theorem runSeq_nil (M : RNMSALNativeModule) (os : PlatformOS) (s : PublicClientApplication) :
    runSeq M os s [] = (s, []) := rfl

/-- Unfolding lemma: `runSeq` on a nonempty sequence. -/
theorem runSeq_cons (M : RNMSALNativeModule) (os : PlatformOS) (s : PublicClientApplication)
    (op : FacadeOp) (rest : List FacadeOp) :
    runSeq M os s (op :: rest) =
      ((runSeq M os (runOp M os s op).state rest).1,
       (op, runOp M os s op) :: (runSeq M os (runOp M os s op).state rest).2) := rfl

/-- On an initialized instance, no facade operation changes the instance
state. -/
theorem runOp_state_of_initialized (M : RNMSALNativeModule) (os : PlatformOS)
    (s : PublicClientApplication) (op : FacadeOp) (h : s.isInitialized = true) :
    (runOp M os s op).state = s := by
  cases op <;> cases os <;>
    simp [runOp, CallOutcome.step, PublicClientApplication.init,
      PublicClientApplication.acquireToken, PublicClientApplication.acquireTokenSilent,
      PublicClientApplication.getAccounts, PublicClientApplication.getAccount,
      PublicClientApplication.removeAccount, PublicClientApplication.signOut,
      PublicClientApplication.validateIsInitialized, ReactNative.Platform.select, h]

/-- On an uninitialized instance, every operation other than `init` throws the
guard error, performs no provider call, and leaves the state unchanged. -/
theorem runOp_nonInit_uninitialized (M : RNMSALNativeModule) (os : PlatformOS)
    (s : PublicClientApplication) (op : FacadeOp) (h : s.isInitialized = false)
    (hop : op ≠ FacadeOp.init) :
    runOp M os s op = { err := some notInitializedError, state := s, calls := [] } := by
  cases op <;> first
  | exact absurd rfl hop
  | simp [runOp, CallOutcome.step, exceptErr,
      PublicClientApplication.acquireToken, PublicClientApplication.acquireTokenSilent,
      PublicClientApplication.getAccounts, PublicClientApplication.getAccount,
      PublicClientApplication.removeAccount, PublicClientApplication.signOut,
      PublicClientApplication.validateIsInitialized, h]

/-- From an uninitialized instance, the only operation that can leave the
instance initialized is an `init` whose provider setup call succeeded. -/
theorem runOp_sets_flag_only_init_ok (M : RNMSALNativeModule) (os : PlatformOS)
    (s : PublicClientApplication) (op : FacadeOp) (h0 : s.isInitialized = false)
    (h1 : (runOp M os s op).state.isInitialized = true) :
    op = FacadeOp.init ∧ M.createPublicClientApplication s.config = Except.ok () := by
  by_cases hop : op = FacadeOp.init
  · subst hop
    refine ⟨rfl, ?_⟩
    cases hc : M.createPublicClientApplication s.config with
    | ok u => cases u; rfl
    | error e =>
        exfalso
        have hs : (runOp M os s FacadeOp.init).state = s := by
          simp [runOp, PublicClientApplication.init, h0, hc, CallOutcome.step]
        rw [hs, h0] at h1
        exact Bool.noConfusion h1
  · have hstep := runOp_nonInit_uninitialized M os s op h0 hop
    rw [hstep] at h1
    rw [h0] at h1
    exact Bool.noConfusion h1

/-- Once an instance is initialized, no sequence of operations changes its
state at all. -/
theorem runSeq_state_of_initialized (M : RNMSALNativeModule) (os : PlatformOS)
    (ops : List FacadeOp) :
    ∀ s : PublicClientApplication, s.isInitialized = true → (runSeq M os s ops).1 = s := by
  induction ops with
  | nil => intro s _; rfl
  | cons op rest ih =>
      intro s h
      have h2 := runOp_state_of_initialized M os s op h
      show (runSeq M os (runOp M os s op).state rest).1 = s
      rw [h2]
      exact ih s h

/-- If an instance starts uninitialized and no `init` call in a sequence
returns normally, the instance is still uninitialized after the sequence. -/
theorem runSeq_no_success_uninitialized (M : RNMSALNativeModule) (os : PlatformOS)
    (ops : List FacadeOp) :
    ∀ s : PublicClientApplication, s.isInitialized = false →
    (∀ p ∈ (runSeq M os s ops).2, ¬(p.1 = FacadeOp.init ∧ p.2.err = none)) →
    (runSeq M os s ops).1.isInitialized = false := by
  induction ops with
  | nil => intro s h _; exact h
  | cons op rest ih =>
      intro s h hall
      rw [runSeq_cons] at hall
      have hhead : ¬(op = FacadeOp.init ∧ (runOp M os s op).err = none) :=
        hall (op, runOp M os s op) (List.mem_cons_self _ _)
      have htail : ∀ p ∈ (runSeq M os (runOp M os s op).state rest).2,
          ¬(p.1 = FacadeOp.init ∧ p.2.err = none) :=
        fun p hp => hall p (List.mem_cons_of_mem _ hp)
      have hstate : (runOp M os s op).state.isInitialized = false := by
        by_cases hop : op = FacadeOp.init
        · subst hop
          cases hc : M.createPublicClientApplication s.config with
          | ok u =>
              exfalso
              apply hhead
              refine ⟨rfl, ?_⟩
              simp [runOp, PublicClientApplication.init, h, hc, CallOutcome.step, exceptErr]
          | error e =>
              simp [runOp, PublicClientApplication.init, h, hc, CallOutcome.step]
        · have hstep := runOp_nonInit_uninitialized M os s op h hop
          rw [hstep]
          exact h
      have := ih (runOp M os s op).state hstate htail
      rw [runSeq_cons]
      exact this

/-- C1: for every sequence of calls on a `PublicClientApplication` instance in
which no `init` call has returned normally, invoking any operation other than
`init` fails with the NotInitializedError guard error, makes no provider call,
and leaves the instance state unchanged. -/
theorem guard_blocks_all_ops_before_init (M : RNMSALNativeModule) (os : PlatformOS)
    (config : MSALConfiguration) (ops : List FacadeOp) (op : FacadeOp)
    (hop : op ≠ FacadeOp.init)
    (hns : ∀ p ∈ (runSeq M os (PublicClientApplication.new config) ops).2,
        ¬(p.1 = FacadeOp.init ∧ p.2.err = none)) :
    runOp M os (runSeq M os (PublicClientApplication.new config) ops).1 op =
      { err := some notInitializedError,
        state := (runSeq M os (PublicClientApplication.new config) ops).1,
        calls := [] } := by
  have hflag := runSeq_no_success_uninitialized M os ops (PublicClientApplication.new config)
    rfl hns
  exact runOp_nonInit_uninitialized M os _ op hflag hop

/-- Witness for C1 at a concrete input: a failed `init` followed by
`getAccounts` on `failingModule`. -/
theorem guard_blocks_all_ops_before_init_witness :
    FacadeOp.getAccounts ≠ FacadeOp.init ∧
    (∀ p ∈ (runSeq failingModule PlatformOS.ios (PublicClientApplication.new 0)
        [FacadeOp.init]).2, ¬(p.1 = FacadeOp.init ∧ p.2.err = none)) ∧
    runOp failingModule PlatformOS.ios
        (runSeq failingModule PlatformOS.ios (PublicClientApplication.new 0) [FacadeOp.init]).1
        FacadeOp.getAccounts =
      { err := some notInitializedError,
        state := (runSeq failingModule PlatformOS.ios (PublicClientApplication.new 0)
          [FacadeOp.init]).1,
        calls := [] } :=
  ⟨by decide, by decide,
    guard_blocks_all_ops_before_init failingModule PlatformOS.ios 0 [FacadeOp.init]
      FacadeOp.getAccounts (by decide) (by decide)⟩

/-- C2: `init` is idempotent.  On a fresh instance whose provider setup call
succeeds, calling `init` twice performs the provider's setup operation exactly
once; the second call returns normally (with the instance itself) and makes no
provider call at all. -/
theorem init_idempotent (M : RNMSALNativeModule) (s : PublicClientApplication)
    (h0 : s.isInitialized = false)
    (hok : M.createPublicClientApplication s.config = Except.ok ()) :
    exceptErr (PublicClientApplication.init M s).ret = none ∧
    countSetupCalls ((PublicClientApplication.init M s).calls ++
      (PublicClientApplication.init M (PublicClientApplication.init M s).state).calls) = 1 ∧
    (PublicClientApplication.init M (PublicClientApplication.init M s).state).ret =
      Except.ok (PublicClientApplication.init M s).state ∧
    (PublicClientApplication.init M (PublicClientApplication.init M s).state).calls = [] := by
  simp [PublicClientApplication.init, h0, hok, countSetupCalls, exceptErr]

/-- Witness for C2 at a concrete input. -/
theorem init_idempotent_witness :
    (PublicClientApplication.new 4).isInitialized = false ∧
    sampleModule.createPublicClientApplication 4 = Except.ok () ∧
    (exceptErr (PublicClientApplication.init sampleModule (PublicClientApplication.new 4)).ret
        = none ∧
      countSetupCalls ((PublicClientApplication.init sampleModule
          (PublicClientApplication.new 4)).calls ++
        (PublicClientApplication.init sampleModule (PublicClientApplication.init sampleModule
          (PublicClientApplication.new 4)).state).calls) = 1 ∧
      (PublicClientApplication.init sampleModule (PublicClientApplication.init sampleModule
          (PublicClientApplication.new 4)).state).ret =
        Except.ok (PublicClientApplication.init sampleModule
          (PublicClientApplication.new 4)).state ∧
      (PublicClientApplication.init sampleModule (PublicClientApplication.init sampleModule
          (PublicClientApplication.new 4)).state).calls = []) :=
  ⟨rfl, rfl, init_idempotent sampleModule (PublicClientApplication.new 4) rfl rfl⟩

/-- C3: when the provider's setup call rejects during `init` on a fresh
instance, the flag stays false and the state is unchanged, `init` throws an
initialization `Error` whose message wraps the provider's error message
(it is literally the provider message surrounded by the fixed prefix and
suffix), and a subsequent `init` call re-invokes the provider's setup
operation. -/
theorem init_failure_keeps_uninitialized_and_retries (M : RNMSALNativeModule)
    (s : PublicClientApplication) (e : JSError) (h0 : s.isInitialized = false)
    (herr : M.createPublicClientApplication s.config = Except.error e) :
    (PublicClientApplication.init M s).state = s ∧
    (PublicClientApplication.init M s).state.isInitialized = false ∧
    (PublicClientApplication.init M s).ret =
      Except.error (jsError (initFailureMessage e.message)) ∧
    initFailureMessage e.message =
      "Failed to initialize PublicClientApplication: " ++ e.message ++
      ". Ensure the native MSAL module is properly linked and configured." ∧
    (PublicClientApplication.init M (PublicClientApplication.init M s).state).calls =
      [ProviderCall.createPublicClientApplication s.config] := by
  refine ⟨?_, ?_, ?_, rfl, ?_⟩ <;>
    simp [PublicClientApplication.init, h0, herr]

/-- Witness for C3 at a concrete input. -/
theorem init_failure_keeps_uninitialized_and_retries_witness :
    (PublicClientApplication.new 2).isInitialized = false ∧
    failingModule.createPublicClientApplication 2 = Except.error (jsError "boom") ∧
    ((PublicClientApplication.init failingModule (PublicClientApplication.new 2)).state =
        PublicClientApplication.new 2 ∧
      (PublicClientApplication.init failingModule
        (PublicClientApplication.new 2)).state.isInitialized = false ∧
      (PublicClientApplication.init failingModule (PublicClientApplication.new 2)).ret =
        Except.error (jsError (initFailureMessage (jsError "boom").message)) ∧
      initFailureMessage (jsError "boom").message =
        "Failed to initialize PublicClientApplication: " ++ (jsError "boom").message ++
        ". Ensure the native MSAL module is properly linked and configured." ∧
      (PublicClientApplication.init failingModule (PublicClientApplication.init failingModule
          (PublicClientApplication.new 2)).state).calls =
        [ProviderCall.createPublicClientApplication 2]) :=
  ⟨rfl, rfl,
    init_failure_keeps_uninitialized_and_retries failingModule
      (PublicClientApplication.new 2) (jsError "boom") rfl rfl⟩

/-- C4: on an initialized instance, `acquireToken` and `acquireTokenSilent`
forward their `params` argument unchanged to the corresponding provider method
and return the provider's result unchanged — covering the success case, the
`undefined` (user-abort) case and the rejection case at once, since the
result equation is over the whole `Except`-valued provider outcome. -/
theorem acquire_token_passthrough (M : RNMSALNativeModule) (s : PublicClientApplication)
    (pI : MSALInteractiveParams) (pS : MSALSilentParams) (h : s.isInitialized = true) :
    (PublicClientApplication.acquireToken M s pI).ret = M.acquireToken pI ∧
    (PublicClientApplication.acquireToken M s pI).calls = [ProviderCall.acquireToken pI] ∧
    (PublicClientApplication.acquireTokenSilent M s pS).ret = M.acquireTokenSilent pS ∧
    (PublicClientApplication.acquireTokenSilent M s pS).calls =
      [ProviderCall.acquireTokenSilent pS] := by
  refine ⟨?_, ?_, ?_, ?_⟩ <;>
    simp [PublicClientApplication.acquireToken, PublicClientApplication.acquireTokenSilent,
      PublicClientApplication.validateIsInitialized, h]

/-- Witness for C4 at a concrete input. -/
theorem acquire_token_passthrough_witness :
    (⟨0, true⟩ : PublicClientApplication).isInitialized = true ∧
    ((PublicClientApplication.acquireToken sampleModule ⟨0, true⟩ 5).ret =
        sampleModule.acquireToken 5 ∧
      (PublicClientApplication.acquireToken sampleModule ⟨0, true⟩ 5).calls =
        [ProviderCall.acquireToken 5] ∧
      (PublicClientApplication.acquireTokenSilent sampleModule ⟨0, true⟩ 7).ret =
        sampleModule.acquireTokenSilent 7 ∧
      (PublicClientApplication.acquireTokenSilent sampleModule ⟨0, true⟩ 7).calls =
        [ProviderCall.acquireTokenSilent 7]) :=
  ⟨rfl, acquire_token_passthrough sampleModule ⟨0, true⟩ 5 7 rfl⟩

/-- C5: on an initialized instance, `signOut` on iOS invokes the provider's
dedicated `signout` with the full `params`; on every other platform it invokes
the provider's `removeAccount` with `params.account`; in both cases the
provider's boolean outcome is returned unchanged. -/
theorem signOut_platform_dispatch (M : RNMSALNativeModule) (s : PublicClientApplication)
    (p : MSALSignoutParams) (h : s.isInitialized = true) :
    PublicClientApplication.signOut M PlatformOS.ios s p =
      { ret := M.signout p, state := s, calls := [ProviderCall.signout p] } ∧
    ∀ os : PlatformOS, os ≠ PlatformOS.ios →
      PublicClientApplication.signOut M os s p =
        { ret := M.removeAccount p.account, state := s,
          calls := [ProviderCall.removeAccount p.account] } := by
  constructor
  · simp [PublicClientApplication.signOut, PublicClientApplication.validateIsInitialized,
      ReactNative.Platform.select, h]
  · intro os hos
    cases os <;>
      simp_all [PublicClientApplication.signOut, PublicClientApplication.validateIsInitialized,
        ReactNative.Platform.select]

/-- Witness for C5 at a concrete input (iOS and Android branches). -/
theorem signOut_platform_dispatch_witness :
    (⟨0, true⟩ : PublicClientApplication).isInitialized = true ∧
    PublicClientApplication.signOut sampleModule PlatformOS.ios ⟨0, true⟩ ⟨3, 9⟩ =
      { ret := sampleModule.signout ⟨3, 9⟩, state := ⟨0, true⟩,
        calls := [ProviderCall.signout ⟨3, 9⟩] } ∧
    PlatformOS.android ≠ PlatformOS.ios ∧
    PublicClientApplication.signOut sampleModule PlatformOS.android ⟨0, true⟩ ⟨3, 9⟩ =
      { ret := sampleModule.removeAccount 3, state := ⟨0, true⟩,
        calls := [ProviderCall.removeAccount 3] } :=
  ⟨rfl, (signOut_platform_dispatch sampleModule ⟨0, true⟩ ⟨3, 9⟩ rfl).1, by decide,
    (signOut_platform_dispatch sampleModule ⟨0, true⟩ ⟨3, 9⟩ rfl).2 PlatformOS.android
      (by decide)⟩

/-- C6: lifecycle of the initialization flag.  It is false at construction; on
an initialized instance no operation changes the state (so the flag is never
reset, even by operations whose provider call fails); from an uninitialized
instance the flag can only become true through an `init` whose provider setup
succeeded (so it is set at most once, only when the provider confirms setup);
and a whole sequence of operations on an initialized instance leaves the
instance in the Ready state. -/
theorem isInitialized_lifecycle (M : RNMSALNativeModule) (os : PlatformOS)
    (config : MSALConfiguration) (ops : List FacadeOp) :
    (PublicClientApplication.new config).isInitialized = false ∧
    (∀ (s : PublicClientApplication) (op : FacadeOp), s.isInitialized = true →
      (runOp M os s op).state = s) ∧
    (∀ (s : PublicClientApplication) (op : FacadeOp), s.isInitialized = false →
      (runOp M os s op).state.isInitialized = true →
      op = FacadeOp.init ∧ M.createPublicClientApplication s.config = Except.ok ()) ∧
    (∀ s : PublicClientApplication, s.isInitialized = true → (runSeq M os s ops).1 = s) := by
  refine ⟨rfl, ?_, ?_, ?_⟩
  · intro s op h
    exact runOp_state_of_initialized M os s op h
  · intro s op h0 h1
    exact runOp_sets_flag_only_init_ok M os s op h0 h1
  · intro s h
    exact runSeq_state_of_initialized M os ops s h

/-- Witness for C6 at concrete inputs, discharging each inner hypothesis: an
`init` on an already-initialized instance leaves the state intact, a
successful `init` from a fresh instance is the only flag-setting step, and a
two-operation sequence on an initialized instance keeps it Ready. -/
theorem isInitialized_lifecycle_witness :
    (PublicClientApplication.new 0).isInitialized = false ∧
    ((⟨0, true⟩ : PublicClientApplication).isInitialized = true ∧
      (runOp failingModule PlatformOS.android ⟨0, true⟩ FacadeOp.init).state = ⟨0, true⟩) ∧
    ((⟨0, false⟩ : PublicClientApplication).isInitialized = false ∧
      (runOp sampleModule PlatformOS.android ⟨0, false⟩ FacadeOp.init).state.isInitialized
        = true ∧
      (FacadeOp.init = FacadeOp.init ∧
        sampleModule.createPublicClientApplication 0 = Except.ok ())) ∧
    ((⟨0, true⟩ : PublicClientApplication).isInitialized = true ∧
      (runSeq failingModule PlatformOS.android ⟨0, true⟩
        [FacadeOp.init, FacadeOp.getAccounts]).1 = ⟨0, true⟩) :=
  ⟨(isInitialized_lifecycle failingModule PlatformOS.android 0
      [FacadeOp.init, FacadeOp.getAccounts]).1,
    ⟨rfl, (isInitialized_lifecycle failingModule PlatformOS.android 0
      [FacadeOp.init, FacadeOp.getAccounts]).2.1 ⟨0, true⟩ FacadeOp.init rfl⟩,
    ⟨rfl, rfl, (isInitialized_lifecycle sampleModule PlatformOS.android 0
      [FacadeOp.init, FacadeOp.getAccounts]).2.2.1 ⟨0, false⟩ FacadeOp.init rfl rfl⟩,
    ⟨rfl, (isInitialized_lifecycle failingModule PlatformOS.android 0
      [FacadeOp.init, FacadeOp.getAccounts]).2.2.2 ⟨0, true⟩ rfl⟩⟩

/-- C7: whenever `init` succeeds — because the provider setup call succeeded,
or because the instance was already initialized — its return value is the
facade instance itself (the post-call instance state), supporting fluent
chaining. -/
theorem init_returns_self (M : RNMSALNativeModule) (s : PublicClientApplication)
    (h : s.isInitialized = true ∨ M.createPublicClientApplication s.config = Except.ok ()) :
    (PublicClientApplication.init M s).ret =
      Except.ok ((PublicClientApplication.init M s).state) := by
  rcases h with h | h
  · simp [PublicClientApplication.init, h]
  · cases hi : s.isInitialized <;> simp [PublicClientApplication.init, h, hi]

/-- Witness for C7 at a concrete input (fresh instance, succeeding setup). -/
theorem init_returns_self_witness :
    ((PublicClientApplication.new 1).isInitialized = true ∨
      sampleModule.createPublicClientApplication (PublicClientApplication.new 1).config =
        Except.ok ()) ∧
    (PublicClientApplication.init sampleModule (PublicClientApplication.new 1)).ret =
      Except.ok ((PublicClientApplication.init sampleModule
        (PublicClientApplication.new 1)).state) :=
  ⟨Or.inr rfl,
    init_returns_self sampleModule (PublicClientApplication.new 1) (Or.inr rfl)⟩

set_option maxRecDepth 8192 in
/-- C8: when the native binding `NativeModules.RNMSAL` is absent, evaluating
`nativeModule.ts` fails immediately with an `Error` whose message names the
missing module (`RNMSAL`) and the linking command; consequently process start
fails before a facade instance can exist (`appStart` never yields one), and
since module evaluation is a one-shot deterministic step there is no retry
path in the facade. -/
theorem nativeModule_missing_fails_at_load :
    loadNativeModule none = Except.error (jsError nativeModuleMissingMessage) ∧
    (∃ a b : String, nativeModuleMissingMessage = a ++ "RNMSAL" ++ b) ∧
    (∃ a b : String,
      nativeModuleMissingMessage = a ++ "npx react-native link react-native-msal" ++ b) ∧
    ∀ config : MSALConfiguration,
      appStart none config = Except.error (jsError nativeModuleMissingMessage) := by
  refine ⟨rfl, ⟨"Native module ",
      " is not available. Please ensure you have linked the native module correctly. " ++
      "Run: npx react-native link react-native-msal (or use Expo config plugin for Expo projects)",
      by decide⟩,
    ⟨"Native module RNMSAL is not available. " ++
      "Please ensure you have linked the native module correctly. Run: ",
      " (or use Expo config plugin for Expo projects)", by decide⟩,
    fun _ => rfl⟩

/-- C9: the spec's `NotInitializedError` and `InitializationError` are not
distinct error classes in the code: the uninitialized-call guard and the
init-failure path both throw plain `Error` instances (equal runtime class
name `"Error"`), and their messages always differ — so the two failure kinds
are distinguishable only by message string, never by error type. -/
theorem guard_and_init_errors_share_class (M : RNMSALNativeModule)
    (s : PublicClientApplication) (p : MSALInteractiveParams) (e : JSError)
    (hs : s.isInitialized = false)
    (hM : M.createPublicClientApplication s.config = Except.error e) :
    (PublicClientApplication.acquireToken M s p).ret = Except.error notInitializedError ∧
    (PublicClientApplication.init M s).ret =
      Except.error (jsError (initFailureMessage e.message)) ∧
    notInitializedError.className = "Error" ∧
    (jsError (initFailureMessage e.message)).className = "Error" ∧
    notInitializedError.className = (jsError (initFailureMessage e.message)).className ∧
    notInitializedError.message ≠ (jsError (initFailureMessage e.message)).message := by
  refine ⟨?_, ?_, rfl, rfl, rfl, ?_⟩
  · simp [PublicClientApplication.acquireToken, PublicClientApplication.validateIsInitialized,
      hs]
  · simp [PublicClientApplication.init, hs, hM]
  · show notInitializedMessage ≠ initFailureMessage e.message
    intro heq
    have h2 : notInitializedMessage.data = (initFailureMessage e.message).data :=
      congrArg String.data heq
    rw [initFailureMessage, String.data_append, String.data_append] at h2
    have h3 : notInitializedMessage.data.head? =
        (("Failed to initialize PublicClientApplication: ".data ++ e.message.data) ++
          ". Ensure the native MSAL module is properly linked and configured.".data).head? :=
      congrArg List.head? h2
    have h4 : (some 'P' : Option Char) = some 'F' := h3
    exact absurd h4 (by decide)

/-- Witness for C9 at a concrete input. -/
theorem guard_and_init_errors_share_class_witness :
    (PublicClientApplication.new 0).isInitialized = false ∧
    failingModule.createPublicClientApplication 0 = Except.error (jsError "boom") ∧
    ((PublicClientApplication.acquireToken failingModule (PublicClientApplication.new 0) 1).ret
        = Except.error notInitializedError ∧
      (PublicClientApplication.init failingModule (PublicClientApplication.new 0)).ret =
        Except.error (jsError (initFailureMessage (jsError "boom").message)) ∧
      notInitializedError.className = "Error" ∧
      (jsError (initFailureMessage (jsError "boom").message)).className = "Error" ∧
      notInitializedError.className =
        (jsError (initFailureMessage (jsError "boom").message)).className ∧
      notInitializedError.message ≠
        (jsError (initFailureMessage (jsError "boom").message)).message) :=
  ⟨rfl, rfl,
    guard_and_init_errors_share_class failingModule (PublicClientApplication.new 0) 1
      (jsError "boom") rfl rfl⟩

/-- C10: on every non-iOS platform, `signOut`'s behaviour depends only on the
`account` field of its parameter record: two parameter values with equal
accounts produce identical call outcomes (same result, same state, same
provider invocations), whatever their other fields are. -/
theorem signOut_default_branch_ignores_other_fields (M : RNMSALNativeModule)
    (os : PlatformOS) (s : PublicClientApplication) (p1 p2 : MSALSignoutParams)
    (hos : os ≠ PlatformOS.ios) (hacc : p1.account = p2.account) :
    PublicClientApplication.signOut M os s p1 = PublicClientApplication.signOut M os s p2 := by
  cases hv : s.validateIsInitialized <;> cases os <;>
    simp_all [PublicClientApplication.signOut, ReactNative.Platform.select, hacc]

/-- Witness for C10 at a concrete input: two parameter records sharing the
account but differing in their other options. -/
theorem signOut_default_branch_ignores_other_fields_witness :
    PlatformOS.web ≠ PlatformOS.ios ∧
    (⟨3, 0⟩ : MSALSignoutParams).account = (⟨3, 42⟩ : MSALSignoutParams).account ∧
    PublicClientApplication.signOut sampleModule PlatformOS.web ⟨0, true⟩ ⟨3, 0⟩ =
      PublicClientApplication.signOut sampleModule PlatformOS.web ⟨0, true⟩ ⟨3, 42⟩ :=
  ⟨by decide, rfl,
    signOut_default_branch_ignores_other_fields sampleModule PlatformOS.web ⟨0, true⟩
      ⟨3, 0⟩ ⟨3, 42⟩ (by decide) rfl⟩
